import Mathlib

/-!
Shallow embedding of the booking / payment core of the `rent-backend`
house-rental service (Django application).

Conventions of the embedding:
* Machine rows become Lean structures; the database becomes an explicit
  `DB` record holding lists of rows, threaded through every operation.
* Calendar dates are day numbers (`Int`); `d2 - d1` is the number of days
  between them, matching Python `(date2 - date1).days`.
* Monetary amounts are integer cents (`Int`), the exact-decimal reading of
  the Django `DecimalField(decimal_places=2)` column type.
* Python `raise ValueError(...)` becomes `Except Err`; every operation
  returns `(Except Err α) × DB`, so "no write happened on failure" is a
  provable statement rather than a typing artifact.
* The Stripe SDK is an external collaborator and is passed in as an
  oracle (`StripeProvider`), with the "mock mode" switch of the source
  (`use_mock_stripe`) modelled as an explicit configuration flag.
-/

namespace RentBackend

/-- `Booking.BookingStatus` (bookings/models.py). -/
inductive BookingStatus
  | pending
  | confirmed
  | cancelled
  | completed
deriving DecidableEq, Repr

/-- `Property.PropertyStatus` (properties/models.py). -/
inductive PropertyStatus
  | pending
  | approved
  | denied
  | rented
deriving DecidableEq, Repr

/-- `User.Role` (users/models.py). -/
inductive Role
  | admin
  | agent
  | tenant
deriving DecidableEq, Repr

/-- `Payment.PaymentStatus` (payments/models.py). -/
inductive PaymentStatus
  | pending
  | processing
  | completed
  | failed
  | refunded
  | canceled
deriving DecidableEq, Repr

/-- `PaymentIntent.PaymentIntentStatus` (payments/models.py). -/
inductive IntentStatus
  | requiresPaymentMethod
  | requiresConfirmation
  | requiresAction
  | processing
  | requiresCapture
  | cancelled
  | succeeded
deriving DecidableEq, Repr

/-- A `properties.Property` row, restricted to the fields the booking and
payment core reads (identity, owner, status, nightly price in cents). -/
structure Property where
  id : Nat
  ownerId : Nat
  status : PropertyStatus
  pricePerNight : Int
deriving DecidableEq, Repr

/-- A `users.User` row, restricted to the fields the core reads. -/
structure User where
  id : Nat
  username : String
  email : String
  role : Role
  isActive : Bool
  stripeCustomerId : Option String
deriving DecidableEq, Repr

/-- A `bookings.Booking` row. -/
structure Booking where
  id : Nat
  propertyId : Nat
  tenantId : Nat
  checkInDate : Int
  checkOutDate : Int
  guests : Nat
  totalPrice : Int
  status : BookingStatus
  guestName : String
  guestEmail : String
  guestPhone : String
  specialRequests : Option String
  isPaid : Bool
  paymentDate : Option Int
  paymentId : Option String
deriving DecidableEq, Repr

/-- A `bookings.BookingReview` row (one-to-one with a booking). -/
structure Review where
  id : Nat
  bookingId : Nat
  rating : Nat
  comment : String
deriving DecidableEq, Repr

/-- A `payments.Payment` row. -/
structure Payment where
  id : Nat
  bookingId : Nat
  userId : Nat
  amount : Int
  currency : String
  status : PaymentStatus
  stripePaymentIntentId : Option String
  stripePaymentMethodId : Option String
  stripeCustomerId : Option String
  receiptEmail : Option String
  completedAt : Option Int
deriving DecidableEq, Repr

/-- A `payments.PaymentIntent` row; `paymentId` is the optional link to the
resulting `Payment` row. -/
structure PaymentIntent where
  id : Nat
  bookingId : Nat
  userId : Nat
  paymentId : Option Nat
  amount : Int
  currency : String
  status : IntentStatus
  stripePaymentIntentId : String
  stripeClientSecret : String
deriving DecidableEq, Repr

/-- A `payments.PaymentMethod` row (only the fields the confirm flow
touches). -/
structure PaymentMethodRow where
  id : Nat
  userId : Nat
  stripePaymentMethodId : String
  isDefault : Bool
deriving DecidableEq, Repr

/-- The detailed booking view assembled by
`BookingService._format_booking_detail`, restricted to the booking-row
fields (the property / tenant / review sub-objects are presentation
joins with no logic of their own). -/
structure BookingDetail where
  id : Nat
  checkInDate : Int
  checkOutDate : Int
  guests : Nat
  totalPrice : Int
  status : BookingStatus
  guestName : String
  guestEmail : String
  guestPhone : String
  specialRequests : Option String
  isPaid : Bool
  paymentDate : Option Int
  paymentId : Option String
  durationDays : Int
deriving DecidableEq, Repr

/-- The database plus the pieces of ambient server state the core reads
(`timezone.now()`, the Django cache keyed by booking id, id sequences). -/
structure DB where
  users : List User
  properties : List Property
  bookings : List Booking
  reviews : List Review
  payments : List Payment
  intents : List PaymentIntent
  paymentMethods : List PaymentMethodRow
  bookingCache : List (Nat × BookingDetail)
  nextUserId : Nat
  nextBookingId : Nat
  nextReviewId : Nat
  nextPaymentId : Nat
  nextIntentId : Nat
  today : Int
  now : Int
deriving Repr

/-- The distinct `ValueError` kinds raised by the core (one constructor
per distinct message in the source). -/
inductive Err
  | propertyNotFound (propertyId : Nat)
  | propertyNotAvailableForBooking
  | checkInDateInPast
  | checkOutNotAfterCheckIn
  | minimumStayOneDay
  | datesNotAvailable
  | tenantOrUserInfoRequired
  | onlyTenantsAndAdminsCanBook
  | guestInfoRequired
  | emailExistsPleaseLogIn
  | bookingNotFound (bookingId : Nat)
  | noPermission
  | invalidStatusTransition (fromStatus toStatus : BookingStatus)
  | onlyTenantCanReview
  | onlyCompletedCanBeReviewed
  | alreadyHasReview
  | bookingAlreadyPaid
  | paymentIntentNotFound (stripeId : String)
  | stripeError (message : String)
deriving DecidableEq, Repr

/-! ### Row lookups (repository `get_..._by_id` helpers) -/

/-- `PropertyRepository.get_property_by_id`. -/
def getPropertyById (db : DB) (propertyId : Nat) : Option Property :=
  db.properties.find? (fun p => p.id == propertyId)

/-- `BookingRepository.get_booking_by_id`. -/
def getBookingById (db : DB) (bookingId : Nat) : Option Booking :=
  db.bookings.find? (fun b => b.id == bookingId)

/-- `UserRepository.get_user_by_email`. -/
def getUserByEmail (db : DB) (email : String) : Option User :=
  db.users.find? (fun u => u.email == email)

/-- `UserRepository.get_user_by_username`. -/
def getUserByUsername (db : DB) (username : String) : Option User :=
  db.users.find? (fun u => u.username == username)

/-- `PaymentIntentRepository.get_payment_intent_by_stripe_id`. -/
def getPaymentIntentByStripeId (db : DB) (stripeId : String) : Option PaymentIntent :=
  db.intents.find? (fun i => i.stripePaymentIntentId == stripeId)

/-- Whether a review row exists for the booking (the ORM check
`hasattr` on the one-to-one review relation). -/
def bookingHasReview (db : DB) (bookingId : Nat) : Bool :=
  db.reviews.any (fun r => r.bookingId == bookingId)

/-! ### Availability checker -/

/-- Whether an existing booking overlaps the half-open range
`[checkIn, checkOut)` in the sense of the ORM filter
`check_in_date__lt=check_out_date, check_out_date__gt=check_in_date`. -/
def overlapsRange (b : Booking) (checkInDate checkOutDate : Int) : Bool :=
  b.checkInDate < checkOutDate && b.checkOutDate > checkInDate

/-- `BookingRepository.check_property_availability`: available iff no
CONFIRMED booking on the property overlaps the range and the property
itself is not RENTED. -/
def checkPropertyAvailability (db : DB) (prop : Property)
    (checkInDate checkOutDate : Int) : Bool :=
  let overlappingBookings := db.bookings.any (fun b =>
    b.propertyId == prop.id &&
    b.status == BookingStatus.confirmed &&
    overlapsRange b checkInDate checkOutDate)
  !overlappingBookings && prop.status != PropertyStatus.rented

/-! ### Booking service (bookings/services.py) -/

/-- Replace the booking row with matching id (repository
`update_booking`: setattr on the fetched row, then `save()`). -/
def replaceBooking (db : DB) (b' : Booking) : DB :=
  { db with bookings := db.bookings.map (fun b => if b.id == b'.id then b' else b) }

/-- Update the status field of the property row with matching id
(`PropertyRepository.update_property(status=...)`). -/
def updatePropertyStatus (db : DB) (propertyId : Nat) (status : PropertyStatus) : DB :=
  { db with properties := db.properties.map (fun p =>
      if p.id == propertyId then { p with status := status } else p) }

/-- Django cache `cache.get(f"booking_{id}")`. -/
def cacheGet (db : DB) (bookingId : Nat) : Option BookingDetail :=
  (db.bookingCache.find? (fun e => e.1 == bookingId)).map (·.2)

/-- Django cache `cache.set(f"booking_{id}", data, CACHE_TIMEOUT)`. -/
def cacheSet (db : DB) (bookingId : Nat) (d : BookingDetail) : DB :=
  { db with bookingCache :=
      (bookingId, d) :: db.bookingCache.filter (fun e => e.1 != bookingId) }

/-- Django cache `cache.delete(f"booking_{id}")`. -/
def cacheDelete (db : DB) (bookingId : Nat) : DB :=
  { db with bookingCache := db.bookingCache.filter (fun e => e.1 != bookingId) }

/-- `Booking.get_duration_days`. -/
def getDurationDays (b : Booking) : Int :=
  b.checkOutDate - b.checkInDate

/-- `BookingService._format_booking_detail`, restricted to the
booking-row fields (presentation joins omitted). -/
def formatBookingDetail (b : Booking) : BookingDetail :=
  { id := b.id
    checkInDate := b.checkInDate
    checkOutDate := b.checkOutDate
    guests := b.guests
    totalPrice := b.totalPrice
    status := b.status
    guestName := b.guestName
    guestEmail := b.guestEmail
    guestPhone := b.guestPhone
    specialRequests := b.specialRequests
    isPaid := b.isPaid
    paymentDate := b.paymentDate
    paymentId := b.paymentId
    durationDays := getDurationDays b }

/-- `BookingService.get_booking`: serve the cached detail when present,
otherwise read the row, format it and populate the cache. -/
def getBooking (db : DB) (bookingId : Nat) : Option BookingDetail × DB :=
  match cacheGet db bookingId with
  | some bookingData => (some bookingData, db)
  | none =>
    match getBookingById db bookingId with
    | none => (none, db)
    | some booking =>
      let bookingData := formatBookingDetail booking
      (some bookingData, cacheSet db bookingId bookingData)

/-- `BookingService._is_valid_status_transition`: the transition table
PENDING → {CONFIRMED, CANCELLED}, CONFIRMED → {CANCELLED, COMPLETED},
CANCELLED → {}, COMPLETED → {}. -/
def isValidStatusTransition (currentStatus newStatus : BookingStatus) : Bool :=
  let validTargets : List BookingStatus :=
    match currentStatus with
    | BookingStatus.pending => [BookingStatus.confirmed, BookingStatus.cancelled]
    | BookingStatus.confirmed => [BookingStatus.cancelled, BookingStatus.completed]
    | BookingStatus.cancelled => []
    | BookingStatus.completed => []
  validTargets.contains newStatus

/-- The permission gate shared by `update_booking_status` and
`mark_booking_as_paid`: a tenant may only touch their own booking, an
agent only bookings on properties they own.  (The property foreign key
always resolves under the ORM; a missing row is treated as a denial.) -/
def bookingWritePermitted (db : DB) (user : User) (booking : Booking) : Bool :=
  !(user.role == Role.tenant && user.id != booking.tenantId) &&
  !(user.role == Role.agent &&
      (match getPropertyById db booking.propertyId with
       | some p => user.id != p.ownerId
       | none => true))

/-- `BookingService.update_booking_status`: look up, check permission,
validate the transition, write the new status, cascade the property
status, invalidate the cache and return the detail view. -/
def updateBookingStatus (db : DB) (bookingId : Nat) (status : BookingStatus)
    (user : User) : Except Err BookingDetail × DB :=
  match getBookingById db bookingId with
  | none => (Except.error (Err.bookingNotFound bookingId), db)
  | some booking =>
    if !bookingWritePermitted db user booking then
      (Except.error Err.noPermission, db)
    else if !isValidStatusTransition booking.status status then
      (Except.error (Err.invalidStatusTransition booking.status status), db)
    else
      let booking' := { booking with status := status }
      let db1 := replaceBooking db booking'
      let db2 :=
        if status == BookingStatus.confirmed then
          updatePropertyStatus db1 booking'.propertyId PropertyStatus.rented
        else db1
      let db3 :=
        if status == BookingStatus.cancelled || status == BookingStatus.completed then
          if !(db2.bookings.any (fun b =>
              b.propertyId == booking'.propertyId &&
              b.status == BookingStatus.confirmed)) then
            updatePropertyStatus db2 booking'.propertyId PropertyStatus.approved
          else db2
        else db2
      let db4 := cacheDelete db3 bookingId
      (Except.ok (formatBookingDetail booking'), db4)

/-- `BookingService.mark_booking_as_paid`: stamp `is_paid`,
`payment_id` and `payment_date`, invalidate the cache. -/
def markBookingAsPaid (db : DB) (bookingId : Nat) (paymentId : String)
    (user : User) : Except Err BookingDetail × DB :=
  match getBookingById db bookingId with
  | none => (Except.error (Err.bookingNotFound bookingId), db)
  | some booking =>
    if !bookingWritePermitted db user booking then
      (Except.error Err.noPermission, db)
    else
      let booking' := { booking with
        isPaid := true
        paymentId := some paymentId
        paymentDate := some db.now }
      let db1 := replaceBooking db booking'
      let db2 := cacheDelete db1 bookingId
      (Except.ok (formatBookingDetail booking'), db2)

/-- `BookingService.create_booking_review`: only the tenant, only on a
COMPLETED booking, at most once; invalidates the cache. -/
def createBookingReview (db : DB) (bookingId : Nat) (rating : Nat)
    (comment : String) (user : User) : Except Err BookingDetail × DB :=
  match getBookingById db bookingId with
  | none => (Except.error (Err.bookingNotFound bookingId), db)
  | some booking =>
    if user.id != booking.tenantId then
      (Except.error Err.onlyTenantCanReview, db)
    else if booking.status != BookingStatus.completed then
      (Except.error Err.onlyCompletedCanBeReviewed, db)
    else if bookingHasReview db bookingId then
      (Except.error Err.alreadyHasReview, db)
    else
      let review : Review :=
        { id := db.nextReviewId, bookingId := bookingId
          rating := rating, comment := comment }
      let db1 := { db with
        reviews := db.reviews ++ [review]
        nextReviewId := db.nextReviewId + 1 }
      let db2 := cacheDelete db1 bookingId
      (Except.ok (formatBookingDetail booking), db2)

/-- `BookingService.update_booking_payment`: admin bypasses the
permission gate; sets or clears the payment flag triple; then re-reads
the detail through `get_booking` (and so through the cache). -/
def updateBookingPayment (db : DB) (bookingId : Nat) (isPaid : Bool)
    (paymentId : Option String) (user : User) :
    Except Err (Option BookingDetail) × DB :=
  match getBookingById db bookingId with
  | none => (Except.error (Err.bookingNotFound bookingId), db)
  | some booking =>
    if user.role != Role.admin && !bookingWritePermitted db user booking then
      (Except.error Err.noPermission, db)
    else
      let booking' :=
        if isPaid then
          { booking with
            isPaid := true
            paymentId := paymentId
            paymentDate := some db.now }
        else
          { booking with
            isPaid := false
            paymentId := none
            paymentDate := none }
      let db1 := replaceBooking db booking'
      let (bookingData, db2) := getBooking db1 booking'.id
      (Except.ok bookingData, db2)

/-- `BookingService.delete_booking`: admin bypasses the permission gate;
returns `false` (not an error) on a missing booking. -/
def deleteBooking (db : DB) (bookingId : Nat) (user : User) :
    Except Err Bool × DB :=
  match getBookingById db bookingId with
  | none => (Except.ok false, db)
  | some booking =>
    if user.role != Role.admin && !bookingWritePermitted db user booking then
      (Except.error Err.noPermission, db)
    else
      (Except.ok true,
        { db with bookings := db.bookings.filter (fun b => b.id != bookingId) })

/-- Lower-casing of `str.lower()` as used by the guest e-mail
comparison. -/
def strLower (s : String) : String :=
  s.map Char.toLower

/-- `BookingService.get_booking_by_email`: unauthenticated lookup that
returns the detail view only when the booking exists and the stored
guest e-mail matches case-insensitively; `None` otherwise. -/
def getBookingByEmail (db : DB) (bookingId : Nat) (guestEmail : String) :
    Option BookingDetail × DB :=
  match getBookingById db bookingId with
  | none => (none, db)
  | some booking =>
    if strLower booking.guestEmail != strLower guestEmail then
      (none, db)
    else
      (some (formatBookingDetail booking), db)

/-! ### Booking strategies (bookings/strategies.py) -/

/-- The `user_info` dict a guest booking supplies (empty strings model
Python falsy/missing values). -/
structure GuestInfo where
  fullName : String
  email : String
  phoneNumber : String
deriving DecidableEq, Repr

/-- `LoggedInBookingStrategy.prepare_tenant`: only tenants and admins
may book; returns the caller unchanged. -/
def loggedInPrepareTenant (db : DB) (user : User) : Except Err User × DB :=
  if user.role != Role.tenant && user.role != Role.admin then
    (Except.error Err.onlyTenantsAndAdminsCanBook, db)
  else
    (Except.ok user, db)

/-- The e-mail local part (`email.split('@')[0]`). -/
def emailLocalPart (email : String) : String :=
  (email.splitOn "@").headD ""

/-- The `while get_user_by_username(username)` suffixing loop of
`GuestBookingStrategy.prepare_tenant`, with fuel (there are only
finitely many users, so `users.length + 1` candidates suffice). -/
def deriveUsernameAux (db : DB) (base : String) : Nat → Nat → String
  | 0, counter => base ++ toString counter
  | fuel + 1, counter =>
    let candidate := base ++ toString counter
    if (getUserByUsername db candidate).isNone then candidate
    else deriveUsernameAux db base fuel (counter + 1)

/-- Unique-username derivation from the e-mail local part with numeric
suffixing on collision. -/
def deriveUsername (db : DB) (base : String) : String :=
  if (getUserByUsername db base).isNone then base
  else deriveUsernameAux db base (db.users.length + 1) 1

/-- `full_name.split(' ', 1)[0]`. -/
def firstNameOf (fullName : String) : String :=
  fullName.takeWhile (fun c => c != ' ')

/-- The remainder of the full name after the first space when a space
exists, else the empty string. -/
def lastNameOf (fullName : String) : String :=
  if fullName.any (fun c => c == ' ') then
    fullName.drop ((firstNameOf fullName).length + 1)
  else ""

/-- `GuestBookingStrategy.prepare_tenant`: reuse an inactive account
with the same e-mail, refuse an active one ("please log in"), otherwise
provision a fresh inactive tenant account. -/
def guestPrepareTenant (db : DB) (info : GuestInfo) : Except Err User × DB :=
  if info.fullName == "" || info.email == "" || info.phoneNumber == "" then
    (Except.error Err.guestInfoRequired, db)
  else
    match getUserByEmail db info.email with
    | some existingUser =>
      if !existingUser.isActive then
        (Except.ok existingUser, db)
      else
        (Except.error Err.emailExistsPleaseLogIn, db)
    | none =>
      let username := deriveUsername db (emailLocalPart info.email)
      let user : User :=
        { id := db.nextUserId
          username := username
          email := info.email
          role := Role.tenant
          isActive := false
          stripeCustomerId := none }
      (Except.ok user,
        { db with users := db.users ++ [user], nextUserId := db.nextUserId + 1 })

/-- `BookingService.create_booking`: ordered validation, price
computation, strategy-based tenant resolution and row creation.  The
`tenant` argument is the authenticated caller (`None` for guests). -/
def createBooking (db : DB) (tenant : Option User) (propertyId : Nat)
    (checkInDate checkOutDate : Int) (guests : Nat)
    (guestName guestEmail guestPhone : String)
    (specialRequests : Option String) (userInfo : Option GuestInfo) :
    Except Err Booking × DB :=
  match getPropertyById db propertyId with
  | none => (Except.error (Err.propertyNotFound propertyId), db)
  | some propertyObj =>
    if propertyObj.status != PropertyStatus.approved then
      (Except.error Err.propertyNotAvailableForBooking, db)
    else if checkInDate < db.today then
      (Except.error Err.checkInDateInPast, db)
    else if checkOutDate <= checkInDate then
      (Except.error Err.checkOutNotAfterCheckIn, db)
    else
      let duration := checkOutDate - checkInDate
      if duration < 1 then
        (Except.error Err.minimumStayOneDay, db)
      else if !checkPropertyAvailability db propertyObj checkInDate checkOutDate then
        (Except.error Err.datesNotAvailable, db)
      else
        let totalPrice := propertyObj.pricePerNight * duration
        let prepared : Except Err User × DB :=
          match tenant with
          | some requestUser => loggedInPrepareTenant db requestUser
          | none =>
            match userInfo with
            | some info => guestPrepareTenant db info
            | none => (Except.error Err.tenantOrUserInfoRequired, db)
        match prepared with
        | (Except.error e, db') => (Except.error e, db')
        | (Except.ok bookingTenant, db') =>
          let booking : Booking :=
            { id := db'.nextBookingId
              propertyId := propertyObj.id
              tenantId := bookingTenant.id
              checkInDate := checkInDate
              checkOutDate := checkOutDate
              guests := guests
              totalPrice := totalPrice
              status := BookingStatus.pending
              guestName := guestName
              guestEmail := guestEmail
              guestPhone := guestPhone
              specialRequests := specialRequests
              isPaid := false
              paymentDate := none
              paymentId := none }
          (Except.ok booking,
            { db' with bookings := db'.bookings ++ [booking],
                       nextBookingId := db'.nextBookingId + 1 })

/-! ### Payment strategies and service (payments/strategies.py,
payments/services.py, payments/models.py) -/

/-- `UserRepository.get_user_by_id` / ORM foreign-key dereference. -/
def getUserById (db : DB) (userId : Nat) : Option User :=
  db.users.find? (fun u => u.id == userId)

/-- Replace the user row with matching id (`user.save()`). -/
def replaceUser (db : DB) (u' : User) : DB :=
  { db with users := db.users.map (fun u => if u.id == u'.id then u' else u) }

/-- Replace the payment-intent row with matching id
(`PaymentIntentRepository.update_payment_intent`). -/
def replaceIntent (db : DB) (i' : PaymentIntent) : DB :=
  { db with intents := db.intents.map (fun i => if i.id == i'.id then i' else i) }

/-- Stripe configuration: `use_mock_stripe` (secret key absent, the
placeholder value, or containing `XXXX`) and `STRIPE_CURRENCY`. -/
structure StripeConfig where
  useMock : Bool
  currency : String
deriving DecidableEq, Repr

/-- The provider-side view of an intent the Stripe SDK returns. -/
structure StripeIntentView where
  id : String
  clientSecret : String
  status : IntentStatus
  paymentMethod : Option String
  customer : Option String
deriving DecidableEq, Repr

/-- The Stripe SDK as a black-box oracle: create / retrieve / confirm an
intent (each may fail with a provider error message) and the customer id
`_get_or_create_stripe_customer` resolves for a user. -/
structure StripeProvider where
  createIntent : Int → String → String → Except String StripeIntentView
  retrieveIntent : String → Except String StripeIntentView
  confirmIntent : String → Option String → Except String StripeIntentView
  attachPaymentMethod : String → String → Except String Unit
  customerFor : Nat → String

/-- The customer id `_get_or_create_stripe_customer` yields: the mock id
in mock mode, the stored id when present, otherwise a provider-created
one. -/
def stripeCustomerIdFor (cfg : StripeConfig) (provider : StripeProvider)
    (user : User) : String :=
  if cfg.useMock then "cus_mock_" ++ toString user.id
  else
    match user.stripeCustomerId with
    | some cid => cid
    | none => provider.customerFor user.id

/-- The customer bootstrap of `prepare_payment_user`: when the user has no
`stripe_customer_id`, resolve one and persist it on the row. -/
def ensureStripeCustomer (cfg : StripeConfig) (provider : StripeProvider)
    (db : DB) (user : User) : User × DB :=
  match user.stripeCustomerId with
  | some _ => (user, db)
  | none =>
    let cid := stripeCustomerIdFor cfg provider user
    let user' := { user with stripeCustomerId := some cid }
    (user', replaceUser db user')

/-- Modelled from the spec:
`PaymentIntentRepository.get_active_payment_intent_for_booking` is
called by both payment strategies (payments/strategies.py lines 80 and
288) but no definition exists under the repository sources; §4.4 of the
spec describes it as "look up any existing non-terminal intent for the
booking", the terminal intent states being SUCCEEDED and CANCELLED. -/
def getActivePaymentIntentForBooking (db : DB) (bookingId : Nat) :
    Option PaymentIntent :=
  db.intents.find? (fun i =>
    i.bookingId == bookingId &&
    !(i.status == IntentStatus.succeeded || i.status == IntentStatus.cancelled))

/-- The dict `create_payment_intent` returns (the booking sub-dict is a
presentation join and is omitted). -/
structure PaymentIntentView where
  id : Nat
  amount : Int
  currency : String
  status : IntentStatus
  stripePaymentIntentId : String
  stripeClientSecret : String
deriving DecidableEq, Repr

/-- The reuse view built from an existing active intent (lines 83-100 /
291-308 of payments/strategies.py). -/
def viewOfExistingIntent (i : PaymentIntent) : PaymentIntentView :=
  { id := i.id
    amount := i.amount
    currency := i.currency
    status := i.status
    stripePaymentIntentId := i.stripePaymentIntentId
    stripeClientSecret := i.stripeClientSecret }

/-- `_create_stripe_payment_intent` (shared shape of the logged-in and
guest variants): call the provider (or fabricate a mock intent), persist
the row, and return the view.  Amounts are stored in cents, so the
provider minor-unit conversion `int(total_price * 100)` is the
identity here. -/
def createStripePaymentIntent (cfg : StripeConfig) (provider : StripeProvider)
    (db : DB) (booking : Booking) (user : User) :
    Except Err PaymentIntentView × DB :=
  let providerView : Except String StripeIntentView :=
    if cfg.useMock then
      let piId := "pi_mock_" ++ toString booking.id ++ "_" ++ toString db.now
      Except.ok
        { id := piId
          clientSecret := piId ++ "_secret_" ++ toString user.id
          status := IntentStatus.requiresPaymentMethod
          paymentMethod := none
          customer := some ("cus_mock_" ++ toString user.id) }
    else
      let customerId := stripeCustomerIdFor cfg provider user
      let idempotencyKey :=
        "booking_" ++ toString booking.id ++ "_" ++ toString user.id
      provider.createIntent booking.totalPrice customerId idempotencyKey
  match providerView with
  | Except.error e => (Except.error (Err.stripeError e), db)
  | Except.ok paymentIntent =>
    let dbPaymentIntent : PaymentIntent :=
      { id := db.nextIntentId
        bookingId := booking.id
        userId := user.id
        paymentId := none
        amount := booking.totalPrice
        currency := cfg.currency
        status := paymentIntent.status
        stripePaymentIntentId := paymentIntent.id
        stripeClientSecret := paymentIntent.clientSecret }
    let db' := { db with
      intents := db.intents ++ [dbPaymentIntent]
      nextIntentId := db.nextIntentId + 1 }
    (Except.ok
      { id := dbPaymentIntent.id
        amount := booking.totalPrice
        currency := cfg.currency
        status := paymentIntent.status
        stripePaymentIntentId := paymentIntent.id
        stripeClientSecret := paymentIntent.clientSecret }, db')

/-- `LoggedInPaymentStrategy.create_payment_intent`: look up the
booking, check the caller is its tenant or an admin, refuse a paid
booking, reuse an active intent unchanged, otherwise create one. -/
def loggedInCreatePaymentIntent (cfg : StripeConfig) (provider : StripeProvider)
    (db : DB) (user : User) (bookingId : Nat) :
    Except Err PaymentIntentView × DB :=
  match getBookingById db bookingId with
  | none => (Except.error (Err.bookingNotFound bookingId), db)
  | some booking =>
    if booking.tenantId != user.id && user.role != Role.admin then
      (Except.error Err.noPermission, db)
    else if booking.isPaid then
      (Except.error Err.bookingAlreadyPaid, db)
    else
      match getActivePaymentIntentForBooking db booking.id with
      | some existingIntent => (Except.ok (viewOfExistingIntent existingIntent), db)
      | none =>
        let (paymentUser, db1) := ensureStripeCustomer cfg provider db user
        createStripePaymentIntent cfg provider db1 booking paymentUser

/-- `GuestPaymentStrategy.create_payment_intent`: same flow without the
caller-identity check; the payer is the booking's tenant row (the
foreign key always resolves under the ORM). -/
def guestCreatePaymentIntent (cfg : StripeConfig) (provider : StripeProvider)
    (db : DB) (bookingId : Nat) :
    Except Err PaymentIntentView × DB :=
  match getBookingById db bookingId with
  | none => (Except.error (Err.bookingNotFound bookingId), db)
  | some booking =>
    if booking.isPaid then
      (Except.error Err.bookingAlreadyPaid, db)
    else
      match getActivePaymentIntentForBooking db booking.id with
      | some existingIntent => (Except.ok (viewOfExistingIntent existingIntent), db)
      | none =>
        match getUserById db booking.tenantId with
        | none => (Except.error (Err.bookingNotFound bookingId), db)
        | some tenantUser =>
          let (paymentUser, db1) := ensureStripeCustomer cfg provider db tenantUser
          createStripePaymentIntent cfg provider db1 booking paymentUser

/-- `PaymentService.create_payment_intent` /
`create_guest_payment_intent` through `PaymentStrategyFactory`:
an authenticated caller selects the logged-in strategy, no caller the
guest one. -/
def createPaymentIntentService (cfg : StripeConfig) (provider : StripeProvider)
    (db : DB) (requestUser : Option User) (bookingId : Nat) :
    Except Err PaymentIntentView × DB :=
  match requestUser with
  | some user => loggedInCreatePaymentIntent cfg provider db user bookingId
  | none => guestCreatePaymentIntent cfg provider db bookingId

/-- `PaymentRepository.create_payment` followed by the `Payment.save`
side effects (payments/models.py): stamp `completed_at` on a COMPLETED
payment and, when the linked booking is not yet paid, stamp the booking
paid with the Stripe intent id as reference. -/
def createPayment (db : DB) (bookingId userId : Nat) (amount : Int)
    (currency : String) (status : PaymentStatus)
    (stripePaymentIntentId stripePaymentMethodId stripeCustomerId
      receiptEmail : Option String) : Payment × DB :=
  let payment : Payment :=
    { id := db.nextPaymentId
      bookingId := bookingId
      userId := userId
      amount := amount
      currency := currency
      status := status
      stripePaymentIntentId := stripePaymentIntentId
      stripePaymentMethodId := stripePaymentMethodId
      stripeCustomerId := stripeCustomerId
      receiptEmail := receiptEmail
      completedAt :=
        if status == PaymentStatus.completed then some db.now else none }
  let db1 :=
    if status == PaymentStatus.completed then
      match getBookingById db bookingId with
      | some booking =>
        if !booking.isPaid then
          replaceBooking db { booking with
            isPaid := true
            paymentDate := some db.now
            paymentId := stripePaymentIntentId }
        else db
      | none => db
    else db
  (payment,
    { db1 with
      payments := db1.payments ++ [payment]
      nextPaymentId := db1.nextPaymentId + 1 })

/-- `PaymentService._save_payment_method` with the `PaymentMethod.save`
default-unsetting: upsert the row, clearing `is_default` on the other
methods of the user when it is the new default. -/
def savePaymentMethodRow (db : DB) (user : User) (stripePmId : String)
    (isDefault : Bool) : DB :=
  match db.paymentMethods.find? (fun m => m.stripePaymentMethodId == stripePmId) with
  | some existing =>
    { db with paymentMethods := db.paymentMethods.map (fun m =>
        if m.id == existing.id then { m with isDefault := isDefault }
        else if isDefault && m.userId == user.id then { m with isDefault := false }
        else m) }
  | none =>
    let cleared :=
      if isDefault then
        db.paymentMethods.map (fun m =>
          if m.userId == user.id then { m with isDefault := false } else m)
      else db.paymentMethods
    { db with paymentMethods := cleared ++
        [{ id := cleared.length + 1, userId := user.id
           stripePaymentMethodId := stripePmId, isDefault := isDefault }] }

/-- The dict `confirm_payment` returns. -/
structure ConfirmView where
  id : Nat
  amount : Int
  currency : String
  status : IntentStatus
  stripePaymentIntentId : String
  requiresAction : Bool
deriving DecidableEq, Repr

/-- The outcome of `confirm_payment`, instrumented with whether the provider
confirmation endpoint (`stripe.PaymentIntent.confirm`) was invoked. -/
structure ConfirmOutcome where
  result : Except Err ConfirmView
  db : DB
  providerConfirmCalled : Bool

/-- `PaymentService.confirm_payment` (payments/services.py lines
77-239): authorization with the relaxed guest path, idempotent handling
of an already-succeeded provider intent, confirmation otherwise,
payment-record creation and intent linkage. -/
def confirmPayment (cfg : StripeConfig) (provider : StripeProvider) (db : DB)
    (user : User) (paymentIntentId : String) (paymentMethodId : Option String)
    (savePaymentMethod : Bool) : ConfirmOutcome :=
  match getPaymentIntentByStripeId db paymentIntentId with
  | none =>
    { result := Except.error (Err.paymentIntentNotFound paymentIntentId)
      db := db, providerConfirmCalled := false }
  | some dbIntent0 =>
    let bookingOpt := getBookingById db dbIntent0.bookingId
    let tenantOpt := bookingOpt.bind (fun b => getUserById db b.tenantId)
    let permissionMismatch :=
      dbIntent0.userId != user.id && user.role != Role.admin
    let isGuestPayment :=
      permissionMismatch &&
        (match tenantOpt with
         | some tenantUser => !tenantUser.isActive
         | none => false)
    if permissionMismatch && !isGuestPayment then
      { result := Except.error Err.noPermission
        db := db, providerConfirmCalled := false }
    else
      match bookingOpt with
      | none =>
        -- foreign-key dereference of `db_payment_intent.booking`;
        -- unreachable under ORM integrity
        { result := Except.error (Err.bookingNotFound dbIntent0.bookingId)
          db := db, providerConfirmCalled := false }
      | some booking =>
        -- step 1: obtain the provider-side intent state (mock, already
        -- succeeded, or an actual confirmation call)
        let step1 : Except Err (StripeIntentView × PaymentIntent × DB × Bool) :=
          if cfg.useMock then
            Except.ok
              ({ id := paymentIntentId
                 clientSecret := paymentIntentId ++ "_secret_mock"
                 status := IntentStatus.succeeded
                 paymentMethod :=
                   some (paymentMethodId.getD ("pm_mock_" ++ toString user.id))
                 customer := some ("cus_mock_" ++ toString user.id) },
               dbIntent0, db, false)
          else
            match provider.retrieveIntent paymentIntentId with
            | Except.error e => Except.error (Err.stripeError e)
            | Except.ok retrieved =>
              if retrieved.status == IntentStatus.succeeded then
                if dbIntent0.paymentId == none then
                  let (payment, db1) := createPayment db booking.id user.id
                    dbIntent0.amount dbIntent0.currency PaymentStatus.completed
                    (some paymentIntentId) retrieved.paymentMethod
                    retrieved.customer (some user.email)
                  let dbIntent1 := { dbIntent0 with
                    paymentId := some payment.id
                    status := IntentStatus.succeeded }
                  Except.ok (retrieved, dbIntent1, replaceIntent db1 dbIntent1, false)
                else
                  Except.ok (retrieved, dbIntent0, db, false)
              else
                match paymentMethodId with
                | some pmId =>
                  let attachStep : Except String DB :=
                    if savePaymentMethod then
                      let customerId := stripeCustomerIdFor cfg provider user
                      match provider.attachPaymentMethod pmId customerId with
                      | Except.error e => Except.error e
                      | Except.ok _ =>
                        Except.ok (savePaymentMethodRow db user pmId true)
                    else Except.ok db
                  match attachStep with
                  | Except.error e => Except.error (Err.stripeError e)
                  | Except.ok db1 =>
                    match provider.confirmIntent paymentIntentId (some pmId) with
                    | Except.error e => Except.error (Err.stripeError e)
                    | Except.ok confirmed =>
                      Except.ok (confirmed, dbIntent0, db1, true)
                | none =>
                  match provider.confirmIntent paymentIntentId none with
                  | Except.error e => Except.error (Err.stripeError e)
                  | Except.ok confirmed =>
                    Except.ok (confirmed, dbIntent0, db, true)
        match step1 with
        | Except.error e =>
          { result := Except.error e, db := db, providerConfirmCalled := false }
        | Except.ok (stripeView, dbIntent1, db1, confirmCalled) =>
          -- step 2: sync the stored status with the provider status
          let dbIntent2 :=
            if dbIntent1.status != stripeView.status then
              { dbIntent1 with status := stripeView.status }
            else dbIntent1
          let db2 :=
            if dbIntent1.status != stripeView.status then
              replaceIntent db1 dbIntent2
            else db1
          -- step 3: on success, create the payment record if absent
          let (dbIntent3, db3) :=
            if stripeView.status == IntentStatus.succeeded &&
                dbIntent2.paymentId == none then
              let receiptEmail :=
                if isGuestPayment then
                  match tenantOpt with
                  | some tenantUser =>
                    some (if tenantUser.email != "" then tenantUser.email
                          else booking.guestEmail)
                  | none => some user.email
                else some user.email
              let (payment, dbA) := createPayment db2 booking.id dbIntent2.userId
                dbIntent2.amount dbIntent2.currency PaymentStatus.completed
                (some paymentIntentId) stripeView.paymentMethod
                stripeView.customer receiptEmail
              let updated := { dbIntent2 with paymentId := some payment.id }
              (updated, replaceIntent dbA updated)
            else (dbIntent2, db2)
          { result := Except.ok
              { id := dbIntent3.id
                amount := dbIntent3.amount
                currency := dbIntent3.currency
                status := stripeView.status
                stripePaymentIntentId := stripeView.id
                requiresAction := stripeView.status == IntentStatus.requiresAction }
            db := db3
            providerConfirmCalled := confirmCalled }

/-- The `{status, message}` dict a webhook handler returns. -/
structure WebhookResult where
  status : String
  message : String
deriving DecidableEq, Repr

/-- `PaymentService._handle_payment_intent_succeeded`: unknown intent →
log a warning and return a soft result without raising; otherwise mark
the intent succeeded and ensure a linked COMPLETED payment exists. -/
def handlePaymentIntentSucceeded (db : DB) (stripeId : String)
    (paymentMethod customer : Option String) : WebhookResult × DB :=
  match getPaymentIntentByStripeId db stripeId with
  | none =>
    ({ status := "error", message := "Payment intent not found in database" }, db)
  | some dbIntent0 =>
    let dbIntent1 := { dbIntent0 with status := IntentStatus.succeeded }
    let db1 := replaceIntent db dbIntent1
    let db2 :=
      if dbIntent1.paymentId == none then
        let receiptEmail := (getUserById db1 dbIntent1.userId).map (·.email)
        let (payment, dbA) := createPayment db1 dbIntent1.bookingId
          dbIntent1.userId dbIntent1.amount dbIntent1.currency
          PaymentStatus.completed (some stripeId) paymentMethod customer
          receiptEmail
        replaceIntent dbA { dbIntent1 with paymentId := some payment.id }
      else db1
    ({ status := "success", message := "Payment intent succeeded" }, db2)

/-! ### C3: availability is false iff a confirmed overlap exists or the
property is rented -/

/-- C3: for every property and date pair, `check_property_availability`
returns `false` iff some CONFIRMED booking on that property overlaps the
half-open range (`existing.check_in < new.check_out` and
`existing.check_out > new.check_in`) or the property's own status is the
RENTED marker; otherwise it returns `true`. -/
theorem availability_false_iff_confirmed_overlap_or_rented
    (db : DB) (prop : Property) (checkInDate checkOutDate : Int) :
    checkPropertyAvailability db prop checkInDate checkOutDate = false ↔
      ((∃ b ∈ db.bookings, b.propertyId = prop.id ∧
          b.status = BookingStatus.confirmed ∧
          b.checkInDate < checkOutDate ∧ b.checkOutDate > checkInDate) ∨
        prop.status = PropertyStatus.rented) := by
  simp only [checkPropertyAvailability, overlapsRange, Bool.and_eq_false_iff,
    Bool.not_eq_false', List.any_eq_true, Bool.and_eq_true, beq_iff_eq,
    bne, Bool.not_eq_false, decide_eq_true_eq]
  aesop

/-! ### Concrete fixtures used by witness and counterexample theorems -/

/-- An empty database with arbitrary sequence values, server date 100
and clock 5000. -/
def emptyDB : DB :=
  { users := []
    properties := []
    bookings := []
    reviews := []
    payments := []
    intents := []
    paymentMethods := []
    bookingCache := []
    nextUserId := 100
    nextBookingId := 1
    nextReviewId := 1
    nextPaymentId := 1
    nextIntentId := 1
    today := 100
    now := 5000 }

/-- A concrete admin user. -/
def adminUser : User :=
  { id := 9
    username := "admin"
    email := "admin@example.com"
    role := Role.admin
    isActive := true
    stripeCustomerId := none }

/-- A concrete active tenant user. -/
def tenantUser : User :=
  { id := 3
    username := "tenant"
    email := "tenant@example.com"
    role := Role.tenant
    isActive := true
    stripeCustomerId := none }

/-- A concrete approved property priced at $100.00 per night. -/
def approvedProp : Property :=
  { id := 7
    ownerId := 2
    status := PropertyStatus.approved
    pricePerNight := 10000 }

/-- A concrete pending, unpaid booking of `approvedProp` by
`tenantUser`. -/
def pendingBooking : Booking :=
  { id := 1
    propertyId := 7
    tenantId := 3
    checkInDate := 100
    checkOutDate := 103
    guests := 2
    totalPrice := 30000
    status := BookingStatus.pending
    guestName := "G"
    guestEmail := "Guest@Example.com"
    guestPhone := "1"
    specialRequests := none
    isPaid := false
    paymentDate := none
    paymentId := none }

/-- A small concrete database: one property, one pending booking, the
two users. -/
def fixtureDB : DB :=
  { emptyDB with
    users := [adminUser, tenantUser]
    properties := [approvedProp]
    bookings := [pendingBooking]
    nextBookingId := 2 }

/-- `fixtureDB` with the booking already COMPLETED. -/
def fixtureDBCompleted : DB :=
  { fixtureDB with
    bookings := [{ pendingBooking with status := BookingStatus.completed }] }

/-! ### C4: the booking status state machine -/

/-- C4: a status transition is accepted exactly when it is in the table
PENDING → {CONFIRMED, CANCELLED}, CONFIRMED → {CANCELLED, COMPLETED};
for a found booking whose caller passes the permission gate, any other
requested transition makes `update_booking_status` fail with the
invalid-transition error and leave the database (in particular the
booking's status) unchanged, while a transition in the table succeeds
and writes the new status. -/
theorem updateBookingStatus_transition_table
    (db : DB) (bookingId : Nat) (newStatus : BookingStatus) (user : User)
    (booking : Booking)
    (hfind : getBookingById db bookingId = some booking)
    (hperm : bookingWritePermitted db user booking = true) :
    (isValidStatusTransition booking.status newStatus = true ↔
      ((booking.status = BookingStatus.pending ∧
          (newStatus = BookingStatus.confirmed ∨ newStatus = BookingStatus.cancelled)) ∨
       (booking.status = BookingStatus.confirmed ∧
          (newStatus = BookingStatus.cancelled ∨ newStatus = BookingStatus.completed)))) ∧
    (isValidStatusTransition booking.status newStatus = false →
      updateBookingStatus db bookingId newStatus user =
        (Except.error (Err.invalidStatusTransition booking.status newStatus), db)) ∧
    (isValidStatusTransition booking.status newStatus = true →
      ∃ db', updateBookingStatus db bookingId newStatus user =
        (Except.ok (formatBookingDetail { booking with status := newStatus }), db')) := by
  refine ⟨?_, ?_, ?_⟩
  · cases booking.status <;> cases newStatus <;> simp [isValidStatusTransition]
  · intro hinvalid
    unfold updateBookingStatus
    rw [hfind]
    simp [hperm, hinvalid]
  · intro hvalid
    unfold updateBookingStatus
    rw [hfind]
    simp [hperm, hvalid]

/-- Witness for C4 at a concrete database: on a COMPLETED booking the
requested transition to CONFIRMED fails with the invalid-transition
error and leaves the database unchanged, while PENDING → CANCELLED is in
the table. -/
theorem updateBookingStatus_transition_table_witness :
    isValidStatusTransition BookingStatus.pending BookingStatus.cancelled = true ∧
    updateBookingStatus fixtureDBCompleted 1 BookingStatus.confirmed adminUser =
      (Except.error (Err.invalidStatusTransition BookingStatus.completed
          BookingStatus.confirmed), fixtureDBCompleted) := by
  refine ⟨rfl, ?_⟩
  exact (updateBookingStatus_transition_table fixtureDBCompleted 1
    BookingStatus.confirmed adminUser
    { pendingBooking with status := BookingStatus.completed }
    rfl rfl).2.1 rfl

/-! ### C10: unauthenticated booking lookup by e-mail -/

/-- C10: `get_booking_by_email` performs no writes and returns the
detail view exactly when the booking exists and its stored guest e-mail
equals the supplied one case-insensitively; a missing booking and an
e-mail mismatch both yield `none` (no exception, no distinct signal). -/
theorem getBookingByEmail_case_insensitive_lookup
    (db : DB) (bookingId : Nat) (guestEmail : String) :
    getBookingByEmail db bookingId guestEmail =
      (match getBookingById db bookingId with
       | none => none
       | some booking =>
         if strLower booking.guestEmail = strLower guestEmail then
           some (formatBookingDetail booking)
         else none, db) := by
  unfold getBookingByEmail
  cases h : getBookingById db bookingId with
  | none => rfl
  | some b =>
    by_cases he : strLower b.guestEmail = strLower guestEmail
    · simp [he]
    · simp [he]

/-! ### C5: ordered validation in create_booking -/

/-- Second components of equal pairs are equal (used to read off the
returned database from an execution equation). -/
theorem snd_of_pair_eq {α β : Type} {a c : α} {b d : β} (h : (a, b) = (c, d)) :
    d = b := (congrArg Prod.snd h).symm

/-- The logged-in tenant-resolution strategy leaves the database
untouched when it fails. -/
theorem loggedInPrepareTenant_error_db (db : DB) (u : User) (e : Err) (db' : DB)
    (h : loggedInPrepareTenant db u = (Except.error e, db')) : db' = db := by
  unfold loggedInPrepareTenant at h
  split at h <;> simp_all

/-- The guest tenant-resolution strategy leaves the database untouched
when it fails. -/
theorem guestPrepareTenant_error_db (db : DB) (info : GuestInfo) (e : Err) (db' : DB)
    (h : guestPrepareTenant db info = (Except.error e, db')) : db' = db := by
  unfold guestPrepareTenant at h
  split at h
  · simp_all
  · split at h
    · split at h <;> simp_all
    · simp_all

/-- C5: `create_booking` validates in order — (1) property exists,
(2) property approved, (3) check-in not before the server date,
(4) check-out strictly after check-in (which subsumes the one-night
minimum stay), (5) availability — each first-failing check yielding its
own distinct error with the database returned unchanged, and every
failing run (validation or tenant resolution) creates no booking row. -/
theorem createBooking_validation_order
    (db : DB) (tenant : Option User) (propertyId : Nat)
    (checkInDate checkOutDate : Int) (guests : Nat)
    (guestName guestEmail guestPhone : String)
    (specialRequests : Option String) (userInfo : Option GuestInfo) :
    (∀ e db', createBooking db tenant propertyId checkInDate checkOutDate guests
        guestName guestEmail guestPhone specialRequests userInfo =
          (Except.error e, db') → db' = db) ∧
    (getPropertyById db propertyId = none →
      createBooking db tenant propertyId checkInDate checkOutDate guests
        guestName guestEmail guestPhone specialRequests userInfo =
          (Except.error (Err.propertyNotFound propertyId), db)) ∧
    (∀ p, getPropertyById db propertyId = some p →
      p.status ≠ PropertyStatus.approved →
      createBooking db tenant propertyId checkInDate checkOutDate guests
        guestName guestEmail guestPhone specialRequests userInfo =
          (Except.error Err.propertyNotAvailableForBooking, db)) ∧
    (∀ p, getPropertyById db propertyId = some p →
      p.status = PropertyStatus.approved →
      checkInDate < db.today →
      createBooking db tenant propertyId checkInDate checkOutDate guests
        guestName guestEmail guestPhone specialRequests userInfo =
          (Except.error Err.checkInDateInPast, db)) ∧
    (∀ p, getPropertyById db propertyId = some p →
      p.status = PropertyStatus.approved →
      ¬checkInDate < db.today →
      checkOutDate ≤ checkInDate →
      createBooking db tenant propertyId checkInDate checkOutDate guests
        guestName guestEmail guestPhone specialRequests userInfo =
          (Except.error Err.checkOutNotAfterCheckIn, db)) ∧
    (∀ p, getPropertyById db propertyId = some p →
      p.status = PropertyStatus.approved →
      ¬checkInDate < db.today →
      checkInDate < checkOutDate →
      checkPropertyAvailability db p checkInDate checkOutDate = false →
      createBooking db tenant propertyId checkInDate checkOutDate guests
        guestName guestEmail guestPhone specialRequests userInfo =
          (Except.error Err.datesNotAvailable, db)) := by
  refine ⟨?_, ?_, ?_, ?_, ?_, ?_⟩
  · intro e db' h
    simp only [createBooking] at h
    split at h
    · exact snd_of_pair_eq h
    · split_ifs at h
      · exact snd_of_pair_eq h
      · exact snd_of_pair_eq h
      · exact snd_of_pair_eq h
      · exact snd_of_pair_eq h
      · exact snd_of_pair_eq h
      · split at h
        · next e0 db0 heq =>
          have hdb0 : db0 = db := by
            split at heq
            · exact loggedInPrepareTenant_error_db db _ _ _ heq
            · split at heq
              · exact guestPrepareTenant_error_db db _ _ _ heq
              · exact snd_of_pair_eq heq
          exact (snd_of_pair_eq h).trans hdb0
        · exact absurd (congrArg Prod.fst h) (by simp)
  · intro hnone
    unfold createBooking
    rw [hnone]
  · intro p hp hstatus
    unfold createBooking
    rw [hp]
    have hbne : (p.status != PropertyStatus.approved) = true := by
      simpa [bne_iff_ne] using hstatus
    simp [hbne]
  · intro p hp hstatus hpast
    unfold createBooking
    rw [hp]
    have hbne : (p.status != PropertyStatus.approved) = false := by
      simp [bne, hstatus]
    simp [hbne, hpast]
  · intro p hp hstatus hpast hco
    unfold createBooking
    rw [hp]
    have hbne : (p.status != PropertyStatus.approved) = false := by
      simp [bne, hstatus]
    simp [hbne, hpast, hco]
  · intro p hp hstatus hpast hco havail
    unfold createBooking
    rw [hp]
    have hbne : (p.status != PropertyStatus.approved) = false := by
      simp [bne, hstatus]
    have h2 : ¬checkOutDate ≤ checkInDate := by omega
    have h3 : ¬checkOutDate - checkInDate < 1 := by omega
    simp [hbne, hpast, h2, h3, havail]

/-- Witness for C5 at a concrete database: booking an unknown property
id fails with the property-not-found error and changes nothing. -/
theorem createBooking_validation_order_witness :
    createBooking fixtureDB (some tenantUser) 99 100 103 2
        "G" "g@x.com" "1" none none =
      (Except.error (Err.propertyNotFound 99), fixtureDB) :=
  (createBooking_validation_order fixtureDB (some tenantUser) 99 100 103 2
    "G" "g@x.com" "1" none none).2.1 rfl

/-! ### C9: total price = nightly price × number of nights -/

/-- C9: every successfully created booking's total price equals the
booked property's nightly price multiplied by the number of nights
(check-out minus check-in in days), in exact integer-cents arithmetic,
and the created row carries the requested dates. -/
theorem createBooking_total_price
    (db : DB) (tenant : Option User) (propertyId : Nat)
    (checkInDate checkOutDate : Int) (guests : Nat)
    (guestName guestEmail guestPhone : String)
    (specialRequests : Option String) (userInfo : Option GuestInfo)
    (b : Booking) (db' : DB)
    (h : createBooking db tenant propertyId checkInDate checkOutDate guests
        guestName guestEmail guestPhone specialRequests userInfo =
      (Except.ok b, db')) :
    ∃ p, getPropertyById db propertyId = some p ∧
      b.totalPrice = p.pricePerNight * (checkOutDate - checkInDate) ∧
      b.checkInDate = checkInDate ∧ b.checkOutDate = checkOutDate := by
  simp only [createBooking] at h
  split at h
  · exact absurd (congrArg Prod.fst h) (by simp)
  · next p hp =>
    split_ifs at h
    · exact absurd (congrArg Prod.fst h) (by simp)
    · exact absurd (congrArg Prod.fst h) (by simp)
    · exact absurd (congrArg Prod.fst h) (by simp)
    · exact absurd (congrArg Prod.fst h) (by simp)
    · exact absurd (congrArg Prod.fst h) (by simp)
    · split at h
      · exact absurd (congrArg Prod.fst h) (by simp)
      · have hfst := congrArg Prod.fst h
        simp only [Except.ok.injEq] at hfst
        subst hfst
        exact ⟨p, hp, rfl, rfl, rfl⟩

/-- Witness for C9: the example of the spec — 18 nights (day 20254 to day
20272) at $100.00 per night gives a total price of exactly $1800.00
(180000 cents). -/
theorem createBooking_total_price_witness :
    ∃ b db' p,
      createBooking fixtureDB (some tenantUser) 7 20254 20272 2
          "Guest Name" "g@x.com" "1" none none = (Except.ok b, db') ∧
      getPropertyById fixtureDB 7 = some p ∧
      b.totalPrice = p.pricePerNight * (20272 - 20254) ∧
      b.totalPrice = 180000 := by
  obtain ⟨p, hp, hprice, _, _⟩ :=
    createBooking_total_price fixtureDB (some tenantUser) 7 20254 20272 2
      "Guest Name" "g@x.com" "1" none none _ _ rfl
  exact ⟨_, _, p, rfl, hp, hprice, by decide⟩

/-! ### C6: guest booking against an existing account e-mail -/

/-- C6: when a guest booking request (all other validations passing)
carries an e-mail owned by an active account, creation fails with the
"please log in" error and the database is returned unchanged — zero new
rows, neither user nor booking; when the e-mail matches an inactive
account, that account is reused as the tenant and no user row is
added. -/
theorem createBooking_guest_email_policy
    (db : DB) (propertyId : Nat) (checkInDate checkOutDate : Int) (guests : Nat)
    (guestName guestEmail guestPhone : String)
    (specialRequests : Option String) (info : GuestInfo)
    (p : Property) (hp : getPropertyById db propertyId = some p)
    (hstatus : p.status = PropertyStatus.approved)
    (hpast : ¬checkInDate < db.today)
    (hco : checkInDate < checkOutDate)
    (havail : checkPropertyAvailability db p checkInDate checkOutDate = true)
    (hinfo : info.fullName ≠ "" ∧ info.email ≠ "" ∧ info.phoneNumber ≠ "") :
    (∀ u, getUserByEmail db info.email = some u → u.isActive = true →
      createBooking db none propertyId checkInDate checkOutDate guests
          guestName guestEmail guestPhone specialRequests (some info) =
        (Except.error Err.emailExistsPleaseLogIn, db)) ∧
    (∀ u, getUserByEmail db info.email = some u → u.isActive = false →
      ∃ b db', createBooking db none propertyId checkInDate checkOutDate guests
          guestName guestEmail guestPhone specialRequests (some info) =
        (Except.ok b, db') ∧ b.tenantId = u.id ∧ db'.users = db.users) := by
  have hbne : (p.status != PropertyStatus.approved) = false := by
    simp [bne, hstatus]
  have h2 : ¬checkOutDate ≤ checkInDate := by omega
  have h3 : ¬checkOutDate - checkInDate < 1 := by omega
  have h4 : (!checkPropertyAvailability db p checkInDate checkOutDate) = false := by
    simp [havail]
  obtain ⟨hn, he, hph⟩ := hinfo
  have hflag : (info.fullName == "" || info.email == "" || info.phoneNumber == "") = false := by
    simp [hn, he, hph]
  constructor
  · intro u hu hact
    have hguest : guestPrepareTenant db info =
        (Except.error Err.emailExistsPleaseLogIn, db) := by
      unfold guestPrepareTenant
      simp [hflag, hu, hact]
    unfold createBooking
    rw [hp]
    simp [hbne, hpast, h2, h3, h4, hguest]
  · intro u hu hact
    have hguest : guestPrepareTenant db info = (Except.ok u, db) := by
      unfold guestPrepareTenant
      simp [hflag, hu, hact]
    unfold createBooking
    rw [hp]
    simp only [hbne, Bool.false_eq_true, if_false, hpast, h2, h3, h4, hguest, if_neg]
    exact ⟨_, _, rfl, rfl, rfl⟩

/-- Witness for C6 at a concrete database: a guest booking with the
e-mail of the active tenant fails with the please-log-in error and leaves
the database untouched. -/
theorem createBooking_guest_email_policy_witness :
    getUserByEmail fixtureDB "tenant@example.com" = some tenantUser ∧
    tenantUser.isActive = true ∧
    createBooking fixtureDB none 7 100 103 2 "G" "g@x.com" "1" none
        (some { fullName := "Guest Name", email := "tenant@example.com",
                phoneNumber := "123" }) =
      (Except.error Err.emailExistsPleaseLogIn, fixtureDB) := by
  refine ⟨rfl, rfl, ?_⟩
  exact (createBooking_guest_email_policy fixtureDB 7 100 103 2 "G" "g@x.com"
      "1" none
      { fullName := "Guest Name", email := "tenant@example.com",
        phoneNumber := "123" }
      approvedProp rfl rfl (by decide) (by decide) rfl
      ⟨by decide, by decide, by decide⟩).1 tenantUser rfl rfl

/-! ### C8: cache invalidation on booking writes -/

/-- A found booking row carries the looked-up id. -/
theorem getBookingById_id (db : DB) (i : Nat) (b : Booking)
    (h : getBookingById db i = some b) : b.id = i := by
  unfold getBookingById at h
  have := List.find?_some h
  simpa using this

/-- Deleting a cache key makes the next lookup of that key miss. -/
theorem cacheGet_cacheDelete (db : DB) (bookingId : Nat) :
    cacheGet (cacheDelete db bookingId) bookingId = none := by
  have hfind : (db.bookingCache.filter (fun e => e.1 != bookingId)).find?
      (fun e => e.1 == bookingId) = none := by
    rw [List.find?_eq_none]
    intro x hx
    have hx2 := (List.mem_filter.mp hx).2
    simp [bne] at hx2 ⊢
    exact hx2
  simp [cacheGet, cacheDelete, hfind]

/-- C8 counterexample at a concrete database: populate the cache with
`get_booking`, then run the payment-flag write `update_booking_payment`
(marking the booking paid) — the write returns the stale pre-write
cached detail (`is_paid = false`), a subsequent `get_booking` still
returns that pre-write data, yet the stored row says `is_paid = true`;
so not every write invalidates the cached detail view as the claim
states. -/
theorem updateBookingPayment_stale_cache_counterexample :
    (updateBookingPayment (getBooking fixtureDB 1).2 1 true
        (some "pay_1") adminUser).1 =
      Except.ok (some (formatBookingDetail pendingBooking)) ∧
    (getBooking ((updateBookingPayment (getBooking fixtureDB 1).2 1 true
        (some "pay_1") adminUser).2) 1).1 =
      some (formatBookingDetail pendingBooking) ∧
    (formatBookingDetail pendingBooking).isPaid = false ∧
    (getBookingById ((updateBookingPayment (getBooking fixtureDB 1).2 1 true
        (some "pay_1") adminUser).2) 1).map Booking.isPaid = some true :=
  ⟨rfl, rfl, rfl, rfl⟩

/-- C8 amended: the writes `update_booking_status`,
`mark_booking_as_paid` and `create_booking_review` do invalidate the
booking's cached detail view, but `update_booking_payment` leaves the
cache entry in place (its re-read serves the stale pre-write data) and
`delete_booking` leaves the whole cache untouched. -/
theorem bookingWrite_cache_invalidation_amended (db : DB) (bookingId : Nat) :
    (∀ st u d db', updateBookingStatus db bookingId st u = (Except.ok d, db') →
        cacheGet db' bookingId = none) ∧
    (∀ pid u d db', markBookingAsPaid db bookingId pid u = (Except.ok d, db') →
        cacheGet db' bookingId = none) ∧
    (∀ r c u d db', createBookingReview db bookingId r c u = (Except.ok d, db') →
        cacheGet db' bookingId = none) ∧
    (∀ ip pid u r db', updateBookingPayment db bookingId ip pid u = (Except.ok r, db') →
        ∀ d0, cacheGet db bookingId = some d0 → cacheGet db' bookingId = some d0) ∧
    (∀ u db', deleteBooking db bookingId u = (Except.ok true, db') →
        db'.bookingCache = db.bookingCache) := by
  refine ⟨?_, ?_, ?_, ?_, ?_⟩
  · intro st u d db' h
    unfold updateBookingStatus at h
    split at h
    · exact absurd (congrArg Prod.fst h) (by simp)
    · split_ifs at h
      all_goals try (dsimp only at h)
      all_goals first
        | (rw [snd_of_pair_eq h]; exact cacheGet_cacheDelete _ _)
        | exact absurd (congrArg Prod.fst h) (by simp)
  · intro pid u d db' h
    unfold markBookingAsPaid at h
    split at h
    · exact absurd (congrArg Prod.fst h) (by simp)
    · split_ifs at h
      all_goals try (dsimp only at h)
      all_goals first
        | (rw [snd_of_pair_eq h]; exact cacheGet_cacheDelete _ _)
        | exact absurd (congrArg Prod.fst h) (by simp)
  · intro r c u d db' h
    unfold createBookingReview at h
    split at h
    · exact absurd (congrArg Prod.fst h) (by simp)
    · split_ifs at h
      all_goals try (dsimp only at h)
      all_goals first
        | (rw [snd_of_pair_eq h]; exact cacheGet_cacheDelete _ _)
        | exact absurd (congrArg Prod.fst h) (by simp)
  · intro ip pid u r db' h d0 hd0
    unfold updateBookingPayment at h
    split at h
    · exact absurd (congrArg Prod.fst h) (by simp)
    · next booking hb =>
      have hrep : ∀ bk : Booking, cacheGet (replaceBooking db bk) bookingId = some d0 := by
        intro bk
        simpa [cacheGet, replaceBooking] using hd0
      have hbid : booking.id = bookingId := getBookingById_id db bookingId booking hb
      split_ifs at h
      · exact absurd (congrArg Prod.fst h) (by simp)
      all_goals {
        simp only [getBooking, hbid, hrep] at h
        rw [snd_of_pair_eq h]
        exact hrep _
      }
  · intro u db' h
    unfold deleteBooking at h
    split at h
    · exact absurd (congrArg Prod.fst h) (by simp)
    · split_ifs at h
      · exact absurd (congrArg Prod.fst h) (by simp)
      · rw [snd_of_pair_eq h]

/-- Witness for the amended C8 at a concrete database: after a
successful status update the cached detail entry for the booking is
gone. -/
theorem bookingWrite_cache_invalidation_amended_witness :
    cacheGet (updateBookingStatus (getBooking fixtureDB 1).2 1
        BookingStatus.confirmed adminUser).2 1 = none :=
  (bookingWrite_cache_invalidation_amended (getBooking fixtureDB 1).2 1).1
    BookingStatus.confirmed adminUser _ _ rfl

/-! ### C7: webhook `payment_intent.succeeded` for an unknown intent -/

/-- C7 counterexample at a concrete database: for a
`payment_intent.succeeded` event whose provider intent id is unknown
locally, the result returned by the handler is labelled `status = "error"`
(not the `"success"` label every acknowledged outcome of this handler
carries), refuting the claim that the soft not-found result is "an
acknowledgement, not an error". -/
theorem handleIntentSucceeded_unknown_not_ack_counterexample :
    (handlePaymentIntentSucceeded emptyDB "pi_unknown" none none).1.status
        = "error" ∧
    (handlePaymentIntentSucceeded emptyDB "pi_unknown" none none).1.status
        ≠ "success" :=
  ⟨rfl, by decide⟩

/-- C7 amended: for every `payment_intent.succeeded` event whose
provider intent id matches no local PaymentIntent row, the handler
returns softly — no exception, no database write, the database returned
unchanged — but the result it returns is labelled `status = "error"`
with message "Payment intent not found in database" (the webhook
endpoint still wraps it in an HTTP 200 acknowledgement). -/
theorem handleIntentSucceeded_unknown_soft_result
    (db : DB) (stripeId : String) (paymentMethod customer : Option String)
    (h : getPaymentIntentByStripeId db stripeId = none) :
    handlePaymentIntentSucceeded db stripeId paymentMethod customer =
      ({ status := "error"
         message := "Payment intent not found in database" }, db) := by
  unfold handlePaymentIntentSucceeded
  rw [h]

/-- Witness for the amended C7 at the concrete empty database. -/
theorem handleIntentSucceeded_unknown_soft_result_witness :
    handlePaymentIntentSucceeded emptyDB "pi_unknown" none none =
      ({ status := "error"
         message := "Payment intent not found in database" }, emptyDB) :=
  handleIntentSucceeded_unknown_soft_result emptyDB "pi_unknown" none none rfl

/-! ### C1: payment-intent creation is idempotent per booking -/

/-- `find?` skips a prefix in which nothing matches. -/
theorem find?_append_of_none {α : Type} (p : α → Bool) (l1 l2 : List α)
    (h : l1.find? p = none) : (l1 ++ l2).find? p = l2.find? p := by
  induction l1 with
  | nil => simp
  | cons a t ih =>
    cases hpa : p a with
    | true =>
      rw [List.find?_cons_of_pos _ hpa] at h
      exact absurd h (by simp)
    | false =>
      have hpa' : ¬p a = true := by simp [hpa]
      rw [List.find?_cons_of_neg _ hpa'] at h
      rw [List.cons_append, List.find?_cons_of_neg _ hpa', ih h]

/-- The customer bootstrap of `prepare_payment_user` only touches user
rows: bookings, intents and the intent id sequence are unchanged. -/
theorem ensureStripeCustomer_fields (cfg : StripeConfig) (provider : StripeProvider)
    (db : DB) (u : User) :
    (ensureStripeCustomer cfg provider db u).2.bookings = db.bookings ∧
    (ensureStripeCustomer cfg provider db u).2.intents = db.intents ∧
    (ensureStripeCustomer cfg provider db u).2.nextIntentId = db.nextIntentId := by
  unfold ensureStripeCustomer
  split
  · exact ⟨rfl, rfl, rfl⟩
  · exact ⟨rfl, rfl, rfl⟩

/-- When an active (non-terminal) intent exists for the booking, both
payment strategies return it unchanged without touching the database. -/
theorem createPaymentIntentService_reuse
    (cfg : StripeConfig) (provider : StripeProvider) (db : DB)
    (requestUser : Option User) (bookingId : Nat) (booking : Booking)
    (intent : PaymentIntent)
    (hb : getBookingById db bookingId = some booking)
    (hunpaid : booking.isPaid = false)
    (hperm : ∀ u, requestUser = some u → booking.tenantId = u.id ∨ u.role = Role.admin)
    (hactive : getActivePaymentIntentForBooking db booking.id = some intent) :
    createPaymentIntentService cfg provider db requestUser bookingId =
      (Except.ok (viewOfExistingIntent intent), db) := by
  cases requestUser with
  | none =>
    unfold createPaymentIntentService guestCreatePaymentIntent
    rw [hb]
    simp [hunpaid, hactive]
  | some u =>
    have hp := hperm u rfl
    unfold createPaymentIntentService loggedInCreatePaymentIntent
    rw [hb]
    have hcond : (booking.tenantId != u.id && u.role != Role.admin) = false := by
      rcases hp with h | h <;> simp [bne, h]
    simp [hcond, hunpaid, hactive]

/-- The database row `_create_stripe_payment_intent` persists, described
through the returned view. -/
def intentRowOfView (db : DB) (booking : Booking) (user : User)
    (v : PaymentIntentView) : PaymentIntent :=
  { id := db.nextIntentId
    bookingId := booking.id
    userId := user.id
    paymentId := none
    amount := booking.totalPrice
    currency := v.currency
    status := v.status
    stripePaymentIntentId := v.stripePaymentIntentId
    stripeClientSecret := v.stripeClientSecret }

/-- A successful `_create_stripe_payment_intent` appends exactly one
intent row, whose persisted fields agree with the returned view. -/
theorem createStripePaymentIntent_ok
    (cfg : StripeConfig) (provider : StripeProvider) (db : DB)
    (booking : Booking) (user : User) (v : PaymentIntentView) (db' : DB)
    (h : createStripePaymentIntent cfg provider db booking user = (Except.ok v, db')) :
    db' = { db with
      intents := db.intents ++ [intentRowOfView db booking user v]
      nextIntentId := db.nextIntentId + 1 } ∧
    v.id = db.nextIntentId ∧ v.amount = booking.totalPrice ∧
    v.currency = cfg.currency := by
  unfold createStripePaymentIntent at h
  split at h
  · dsimp only at h
    have hv := Except.ok.inj (congrArg Prod.fst h)
    have hdb := snd_of_pair_eq h
    subst hv
    exact ⟨hdb, rfl, rfl, rfl⟩
  · dsimp only at h
    split at h
    · exact absurd (congrArg Prod.fst h) (by simp)
    · have hv := Except.ok.inj (congrArg Prod.fst h)
      have hdb := snd_of_pair_eq h
      subst hv
      exact ⟨hdb, rfl, rfl, rfl⟩

/-- After a first call created a non-terminal intent, a second call
finds it active and returns it with the database unchanged. -/
theorem createPaymentIntent_second_call_after_create
    (cfg : StripeConfig) (provider : StripeProvider) (db dbU : DB)
    (requestUser : Option User) (bookingId : Nat) (booking : Booking)
    (pu : User) (v1 : PaymentIntentView) (db1 : DB)
    (hb : getBookingById db bookingId = some booking)
    (hunpaid : booking.isPaid = false)
    (hperm : ∀ u, requestUser = some u → booking.tenantId = u.id ∨ u.role = Role.admin)
    (hactive1 : v1.status ≠ IntentStatus.succeeded)
    (hactive2 : v1.status ≠ IntentStatus.cancelled)
    (hact : getActivePaymentIntentForBooking db booking.id = none)
    (hUb : dbU.bookings = db.bookings) (hUi : dbU.intents = db.intents)
    (hcs : createStripePaymentIntent cfg provider dbU booking pu = (Except.ok v1, db1)) :
    createPaymentIntentService cfg provider db1 requestUser bookingId =
      (Except.ok v1, db1) := by
  obtain ⟨hdb1, hvid, hvam, hvcur⟩ :=
    createStripePaymentIntent_ok cfg provider dbU booking pu v1 db1 hcs
  have hb1 : getBookingById db1 bookingId = some booking := by
    unfold getBookingById at hb ⊢
    rw [hdb1]
    dsimp only
    rw [hUb]
    exact hb
  have hprow : ((intentRowOfView dbU booking pu v1).bookingId == booking.id &&
      !((intentRowOfView dbU booking pu v1).status == IntentStatus.succeeded ||
        (intentRowOfView dbU booking pu v1).status == IntentStatus.cancelled)) = true := by
    simp [intentRowOfView, hactive1, hactive2]
  have hactrow : getActivePaymentIntentForBooking db1 booking.id =
      some (intentRowOfView dbU booking pu v1) := by
    unfold getActivePaymentIntentForBooking at hact ⊢
    rw [hdb1]
    dsimp only
    rw [hUi]
    rw [find?_append_of_none _ _ _ hact]
    simp only [List.find?]
    rw [hprow]
  have hv1row : viewOfExistingIntent (intentRowOfView dbU booking pu v1) = v1 := by
    obtain ⟨vid, vam, vcur, vst, vpi, vcs⟩ := v1
    simp only [PaymentIntentView.mk.injEq] at hvid hvam hvcur ⊢
    simp [viewOfExistingIntent, intentRowOfView, hvid, hvam]
  have hfin := createPaymentIntentService_reuse cfg provider db1 requestUser
    bookingId booking (intentRowOfView dbU booking pu v1) hb1 hunpaid hperm hactrow
  rw [hv1row] at hfin
  exact hfin

/-- C1: for an unpaid booking (the caller being its tenant or an admin
in the authenticated case; the guest path has no caller), a second
`create_payment_intent` call — whatever the first call did, provided the
intent it returned is non-terminal — returns exactly the view of the
first call (in particular the same provider intent id) and leaves the
database, in particular the intent table, unchanged: no second intent
record is created. -/
theorem createPaymentIntent_idempotent
    (cfg : StripeConfig) (provider : StripeProvider) (db : DB)
    (requestUser : Option User) (bookingId : Nat) (booking : Booking)
    (hb : getBookingById db bookingId = some booking)
    (hunpaid : booking.isPaid = false)
    (hperm : ∀ u, requestUser = some u → booking.tenantId = u.id ∨ u.role = Role.admin)
    (v1 : PaymentIntentView) (db1 : DB)
    (h1 : createPaymentIntentService cfg provider db requestUser bookingId =
      (Except.ok v1, db1))
    (hactive1 : v1.status ≠ IntentStatus.succeeded)
    (hactive2 : v1.status ≠ IntentStatus.cancelled) :
    createPaymentIntentService cfg provider db1 requestUser bookingId =
      (Except.ok v1, db1) := by
  cases hact : getActivePaymentIntentForBooking db booking.id with
  | some i =>
    have hrun := createPaymentIntentService_reuse cfg provider db requestUser
      bookingId booking i hb hunpaid hperm hact
    rw [hrun] at h1
    have hv : viewOfExistingIntent i = v1 := Except.ok.inj (congrArg Prod.fst h1)
    have hdb : db1 = db := snd_of_pair_eq h1
    subst hdb
    rw [← hv]
    exact createPaymentIntentService_reuse cfg provider db1 requestUser
      bookingId booking i hb hunpaid hperm hact
  | none =>
    cases requestUser with
    | some u =>
      have hp := hperm u rfl
      have hcond : (booking.tenantId != u.id && u.role != Role.admin) = false := by
        rcases hp with h | h <;> simp [bne, h]
      unfold createPaymentIntentService loggedInCreatePaymentIntent at h1
      rw [hb] at h1
      simp only [hcond, Bool.false_eq_true, if_false, hunpaid, hact] at h1
      rcases hE : ensureStripeCustomer cfg provider db u with ⟨pu, dbU⟩
      rw [hE] at h1
      have hf := ensureStripeCustomer_fields cfg provider db u
      rw [hE] at hf
      exact createPaymentIntent_second_call_after_create cfg provider db dbU
        (some u) bookingId booking pu v1 db1 hb hunpaid hperm hactive1 hactive2
        hact hf.1 hf.2.1 h1
    | none =>
      unfold createPaymentIntentService guestCreatePaymentIntent at h1
      rw [hb] at h1
      simp only [hunpaid, Bool.false_eq_true, if_false, hact] at h1
      cases hT : getUserById db booking.tenantId with
      | none =>
        rw [hT] at h1
        exact absurd (congrArg Prod.fst h1) (by simp)
      | some tu =>
        rw [hT] at h1
        dsimp only at h1
        rcases hE : ensureStripeCustomer cfg provider db tu with ⟨pu, dbU⟩
        rw [hE] at h1
        dsimp only at h1
        have hf := ensureStripeCustomer_fields cfg provider db tu
        rw [hE] at hf
        exact createPaymentIntent_second_call_after_create cfg provider db dbU
          none bookingId booking pu v1 db1 hb hunpaid hperm hactive1 hactive2
          hact hf.1 hf.2.1 h1

/-- A mock-mode Stripe configuration (unconfigured API keys). -/
def mockCfg : StripeConfig := { useMock := true, currency := "usd" }

/-- A provider oracle that always fails, so any successful run in mock
mode demonstrably never reached the network. -/
def offlineProvider : StripeProvider :=
  { createIntent := fun _ _ _ => Except.error "offline"
    retrieveIntent := fun _ => Except.error "offline"
    confirmIntent := fun _ _ => Except.error "offline"
    attachPaymentMethod := fun _ _ => Except.error "offline"
    customerFor := fun i => "cus_" ++ toString i }

/-- Witness for C1 at a concrete database: calling the service twice for
the unpaid booking returns the same view (same provider intent id) both
times, the second call leaving the state unchanged. -/
theorem createPaymentIntent_idempotent_witness :
    ∃ v1 db1,
      createPaymentIntentService mockCfg offlineProvider fixtureDB
          (some tenantUser) 1 = (Except.ok v1, db1) ∧
      createPaymentIntentService mockCfg offlineProvider db1
          (some tenantUser) 1 = (Except.ok v1, db1) := by
  refine ⟨_, _, rfl, ?_⟩
  exact createPaymentIntent_idempotent mockCfg offlineProvider fixtureDB
    (some tenantUser) 1 pendingBooking rfl rfl
    (fun u hu => by simp at hu; subst hu; exact Or.inl rfl)
    _ _ rfl (by decide) (by decide)

/-! ### C2: idempotent confirmation of an already-succeeded intent -/

/-- The COMPLETED payment rows recorded for a given provider intent. -/
def completedPaymentsFor (db : DB) (stripeId : String) : List Payment :=
  db.payments.filter (fun p =>
    p.stripePaymentIntentId == some stripeId && p.status == PaymentStatus.completed)

/-- `find?` commutes with a map that preserves the predicate. -/
theorem find?_map_pres {α : Type} (p : α → Bool) (f : α → α)
    (hf : ∀ a, p (f a) = p a) :
    ∀ l : List α, (l.map f).find? p = (l.find? p).map f := by
  intro l
  induction l with
  | nil => rfl
  | cons a t ih =>
    cases hpa : p a with
    | true => simp [List.find?, hf, hpa]
    | false => simp [List.find?, hf, hpa, ih]

/-- A found intent row carries the looked-up provider intent id. -/
theorem getPaymentIntentByStripeId_pid (db : DB) (pid : String)
    (i : PaymentIntent) (h : getPaymentIntentByStripeId db pid = some i) :
    i.stripePaymentIntentId = pid := by
  unfold getPaymentIntentByStripeId at h
  have := List.find?_some h
  simpa using this

/-- A found intent row is a row of the intent table. -/
theorem getPaymentIntentByStripeId_mem (db : DB) (pid : String)
    (i : PaymentIntent) (h : getPaymentIntentByStripeId db pid = some i) :
    i ∈ db.intents := by
  unfold getPaymentIntentByStripeId at h
  exact List.mem_of_find?_eq_some h

/-- Booking lookup only depends on the bookings table. -/
theorem getBookingById_bookings_eq (dbA dbB : DB) (i : Nat)
    (h : dbA.bookings = dbB.bookings) :
    getBookingById dbA i = getBookingById dbB i := by
  unfold getBookingById
  rw [h]

/-- Looking a booking up again after replacing it yields the
replacement. -/
theorem getBookingById_replaceBooking (db : DB) (i : Nat) (booking bk' : Booking)
    (h : getBookingById db i = some booking) (hid : bk'.id = i) :
    getBookingById (replaceBooking db bk') i = some bk' := by
  have hbkid : booking.id = i := getBookingById_id db i booking h
  unfold getBookingById replaceBooking
  dsimp only
  have hf : ∀ a : Booking, ((if a.id == bk'.id then bk' else a).id == i) = (a.id == i) := by
    intro a
    by_cases ha : (a.id == bk'.id) = true
    · have haid : a.id = bk'.id := by simpa using ha
      simp [ha, hid, haid]
    · simp [ha]
  rw [find?_map_pres _ _ hf]
  unfold getBookingById at h
  rw [h]
  simp [hbkid, hid]

/-- `confirm_payment` on an intent the provider reports as already
SUCCEEDED, when the intent has no linked payment yet: no provider
confirmation happens, exactly one COMPLETED payment row is created, and
the booking ends up stamped paid. -/
theorem confirmPayment_succeeded_payment_created
    (cfg : StripeConfig) (provider : StripeProvider) (db : DB) (user : User)
    (pid : String) (pmId : Option String) (save : Bool)
    (intent : PaymentIntent) (booking : Booking) (rv : StripeIntentView)
    (hmock : cfg.useMock = false)
    (hintent : getPaymentIntentByStripeId db pid = some intent)
    (hbooking : getBookingById db intent.bookingId = some booking)
    (hauth : intent.userId = user.id ∨ user.role = Role.admin)
    (hretr : provider.retrieveIntent pid = Except.ok rv)
    (hsucc : rv.status = IntentStatus.succeeded)
    (hpm : intent.paymentId = none)
    (hempty : completedPaymentsFor db pid = []) :
    (confirmPayment cfg provider db user pid pmId save).providerConfirmCalled = false ∧
    (∃ v, (confirmPayment cfg provider db user pid pmId save).result = Except.ok v ∧
      v.status = IntentStatus.succeeded) ∧
    (completedPaymentsFor (confirmPayment cfg provider db user pid pmId save).db pid).length = 1 ∧
    (getBookingById (confirmPayment cfg provider db user pid pmId save).db booking.id).map
        Booking.isPaid = some true := by
  have hbid : booking.id = intent.bookingId :=
    getBookingById_id db intent.bookingId booking hbooking
  have hbooking' : getBookingById db booking.id = some booking := by
    rw [hbid]; exact hbooking
  have hmismatch : (intent.userId != user.id && user.role != Role.admin) = false := by
    rcases hauth with h | h <;> simp [bne, h]
  have hempty' : db.payments.filter (fun p =>
      p.stripePaymentIntentId == some pid && p.status == PaymentStatus.completed) = [] := by
    simpa [completedPaymentsFor] using hempty
  refine ⟨?_, ?_, ?_, ?_⟩
  · simp [confirmPayment, hintent, hbooking, hmismatch, hmock, hretr, hsucc, hpm]
  · refine ⟨{ id := intent.id
              amount := intent.amount
              currency := intent.currency
              status := IntentStatus.succeeded
              stripePaymentIntentId := rv.id
              requiresAction := false }, ?_, rfl⟩
    simp [confirmPayment, hintent, hbooking, hmismatch, hmock, hretr, hsucc, hpm]
  · have hpay : (confirmPayment cfg provider db user pid pmId save).db.payments =
        db.payments ++ [(createPayment db booking.id user.id intent.amount intent.currency
          PaymentStatus.completed (some pid) rv.paymentMethod rv.customer (some user.email)).1] := by
      simp [confirmPayment, hintent, hbooking, hmismatch, hmock, hretr, hsucc, hpm,
        createPayment, replaceIntent, replaceBooking, hbooking']
      cases booking.isPaid <;> simp
    unfold completedPaymentsFor
    rw [hpay, List.filter_append, hempty']
    simp [createPayment]
  · cases hpaid0 : booking.isPaid with
    | true =>
      have hbk : (confirmPayment cfg provider db user pid pmId save).db.bookings = db.bookings := by
        simp [confirmPayment, hintent, hbooking, hmismatch, hmock, hretr, hsucc, hpm,
          createPayment, replaceIntent, hbooking', hpaid0]
      rw [getBookingById_bookings_eq _ db _ hbk, hbooking']
      simp [hpaid0]
    | false =>
      have hbk : (confirmPayment cfg provider db user pid pmId save).db.bookings =
          (replaceBooking db { booking with
            isPaid := true
            paymentDate := some db.now
            paymentId := some pid }).bookings := by
        simp [confirmPayment, hintent, hbooking, hmismatch, hmock, hretr, hsucc, hpm,
          createPayment, replaceIntent, hbooking', hpaid0]
      rw [getBookingById_bookings_eq _ _ _ hbk,
        getBookingById_replaceBooking db booking.id booking
          { booking with isPaid := true, paymentDate := some db.now, paymentId := some pid }
          hbooking' rfl]
      simp

/-- `confirm_payment` on an intent the provider reports as already
SUCCEEDED, when a payment is already linked: no provider confirmation,
no new payment row, the count of COMPLETED rows stays one, and the
booking remains paid. -/
theorem confirmPayment_succeeded_payment_linked
    (cfg : StripeConfig) (provider : StripeProvider) (db : DB) (user : User)
    (pid : String) (pmId : Option String) (save : Bool)
    (intent : PaymentIntent) (booking : Booking) (rv : StripeIntentView)
    (payId : Nat)
    (hmock : cfg.useMock = false)
    (hintent : getPaymentIntentByStripeId db pid = some intent)
    (hbooking : getBookingById db intent.bookingId = some booking)
    (hauth : intent.userId = user.id ∨ user.role = Role.admin)
    (hretr : provider.retrieveIntent pid = Except.ok rv)
    (hsucc : rv.status = IntentStatus.succeeded)
    (hpm : intent.paymentId = some payId)
    (hlist : (completedPaymentsFor db pid).map Payment.id = [payId])
    (hpaid : booking.isPaid = true) :
    (confirmPayment cfg provider db user pid pmId save).providerConfirmCalled = false ∧
    (∃ v, (confirmPayment cfg provider db user pid pmId save).result = Except.ok v ∧
      v.status = IntentStatus.succeeded) ∧
    (completedPaymentsFor (confirmPayment cfg provider db user pid pmId save).db pid).length = 1 ∧
    (getBookingById (confirmPayment cfg provider db user pid pmId save).db booking.id).map
        Booking.isPaid = some true := by
  have hbid : booking.id = intent.bookingId :=
    getBookingById_id db intent.bookingId booking hbooking
  have hbooking' : getBookingById db booking.id = some booking := by
    rw [hbid]; exact hbooking
  have hmismatch : (intent.userId != user.id && user.role != Role.admin) = false := by
    rcases hauth with h | h <;> simp [bne, h]
  have hlen : (completedPaymentsFor db pid).length = 1 := by
    have := congrArg List.length hlist
    simpa using this
  by_cases hst : intent.status = IntentStatus.succeeded
  all_goals {
    refine ⟨?_, ?_, ?_, ?_⟩
    · simp [confirmPayment, hintent, hbooking, hmismatch, hmock, hretr, hsucc, hpm, hst]
    · refine ⟨{ id := intent.id
                amount := intent.amount
                currency := intent.currency
                status := IntentStatus.succeeded
                stripePaymentIntentId := rv.id
                requiresAction := false }, ?_, rfl⟩
      simp [confirmPayment, hintent, hbooking, hmismatch, hmock, hretr, hsucc, hpm, hst]
    · have hpay : (confirmPayment cfg provider db user pid pmId save).db.payments =
          db.payments := by
        simp [confirmPayment, hintent, hbooking, hmismatch, hmock, hretr, hsucc, hpm,
          hst, replaceIntent]
      unfold completedPaymentsFor at hlen ⊢
      rw [hpay]
      exact hlen
    · have hbk : (confirmPayment cfg provider db user pid pmId save).db.bookings =
          db.bookings := by
        simp [confirmPayment, hintent, hbooking, hmismatch, hmock, hretr, hsucc, hpm,
          hst, replaceIntent]
      rw [getBookingById_bookings_eq _ db _ hbk, hbooking']
      simp [hpaid]
  }

/-- C2: for every intent whose provider-side status is already
SUCCEEDED (non-mock mode, caller authorized, local payment records
consistent with the intent link), `confirm_payment` issues no provider
confirmation call, succeeds with a SUCCEEDED view, leaves exactly one
COMPLETED Payment row for that intent — creating it only when missing
and linking it onto the intent — and the booking ends up stamped
paid. -/
theorem confirmPayment_already_succeeded_idempotent
    (cfg : StripeConfig) (provider : StripeProvider) (db : DB) (user : User)
    (pid : String) (pmId : Option String) (save : Bool)
    (intent : PaymentIntent) (booking : Booking) (rv : StripeIntentView)
    (hmock : cfg.useMock = false)
    (hintent : getPaymentIntentByStripeId db pid = some intent)
    (hbooking : getBookingById db intent.bookingId = some booking)
    (hauth : intent.userId = user.id ∨ user.role = Role.admin)
    (hretr : provider.retrieveIntent pid = Except.ok rv)
    (hsucc : rv.status = IntentStatus.succeeded)
    (hcount0 : intent.paymentId = none → completedPaymentsFor db pid = [])
    (hcount1 : ∀ payId, intent.paymentId = some payId →
      (completedPaymentsFor db pid).map Payment.id = [payId])
    (hpaid1 : ∀ payId, intent.paymentId = some payId → booking.isPaid = true) :
    (confirmPayment cfg provider db user pid pmId save).providerConfirmCalled = false ∧
    (∃ v, (confirmPayment cfg provider db user pid pmId save).result = Except.ok v ∧
      v.status = IntentStatus.succeeded) ∧
    (completedPaymentsFor (confirmPayment cfg provider db user pid pmId save).db pid).length = 1 ∧
    (getBookingById (confirmPayment cfg provider db user pid pmId save).db booking.id).map
        Booking.isPaid = some true ∧
    (∃ i', i' ∈ (confirmPayment cfg provider db user pid pmId save).db.intents ∧
      i'.stripePaymentIntentId = pid ∧ i'.paymentId ≠ none) := by
  have hbid : booking.id = intent.bookingId :=
    getBookingById_id db intent.bookingId booking hbooking
  have hbooking' : getBookingById db booking.id = some booking := by
    rw [hbid]; exact hbooking
  have hmismatch : (intent.userId != user.id && user.role != Role.admin) = false := by
    rcases hauth with h | h <;> simp [bne, h]
  have hmem := getPaymentIntentByStripeId_mem db pid intent hintent
  have hpidq := getPaymentIntentByStripeId_pid db pid intent hintent
  cases hpm : intent.paymentId with
  | none =>
    have h4 := confirmPayment_succeeded_payment_created cfg provider db user pid
      pmId save intent booking rv hmock hintent hbooking hauth hretr hsucc hpm
      (hcount0 hpm)
    refine ⟨h4.1, h4.2.1, h4.2.2.1, h4.2.2.2, ?_⟩
    have hint : (confirmPayment cfg provider db user pid pmId save).db.intents =
        db.intents.map (fun i0 => if i0.id == intent.id then
          { intent with paymentId := some db.nextPaymentId, status := IntentStatus.succeeded }
          else i0) := by
      simp [confirmPayment, hintent, hbooking, hmismatch, hmock, hretr, hsucc, hpm,
        createPayment, replaceIntent, hbooking']
      cases booking.isPaid <;> simp [replaceBooking]
    refine ⟨{ intent with paymentId := some db.nextPaymentId, status := IntentStatus.succeeded },
      ?_, hpidq, by simp⟩
    rw [hint]
    have hmm := List.mem_map_of_mem (fun i0 => if i0.id == intent.id then
      { intent with paymentId := some db.nextPaymentId, status := IntentStatus.succeeded }
      else i0) hmem
    simpa using hmm
  | some payId =>
    have h4 := confirmPayment_succeeded_payment_linked cfg provider db user pid
      pmId save intent booking rv payId hmock hintent hbooking hauth hretr hsucc
      hpm (hcount1 payId hpm) (hpaid1 payId hpm)
    refine ⟨h4.1, h4.2.1, h4.2.2.1, h4.2.2.2, ?_⟩
    by_cases hst : intent.status = IntentStatus.succeeded
    · have hint : (confirmPayment cfg provider db user pid pmId save).db.intents =
          db.intents := by
        simp [confirmPayment, hintent, hbooking, hmismatch, hmock, hretr, hsucc,
          hpm, hst]
      rw [hint]
      exact ⟨intent, hmem, hpidq, by simp [hpm]⟩
    · have hint : (confirmPayment cfg provider db user pid pmId save).db.intents =
          db.intents.map (fun i0 => if i0.id == intent.id then
            { intent with status := IntentStatus.succeeded } else i0) := by
        simp [confirmPayment, hintent, hbooking, hmismatch, hmock, hretr, hsucc,
          hpm, hst, replaceIntent]
      refine ⟨{ intent with status := IntentStatus.succeeded }, ?_, hpidq, by simp [hpm]⟩
      rw [hint]
      have hmm := List.mem_map_of_mem (fun i0 => if i0.id == intent.id then
        { intent with status := IntentStatus.succeeded } else i0) hmem
      simpa using hmm

/-- A non-mock Stripe configuration. -/
def realCfg : StripeConfig := { useMock := false, currency := "usd" }

/-- A provider oracle whose `retrieve` reports every intent as already
SUCCEEDED and whose confirmation endpoint always fails — so a
successful confirmation flow demonstrably never called it. -/
def succeededProvider : StripeProvider :=
  { createIntent := fun _ _ _ => Except.error "offline"
    retrieveIntent := fun p => Except.ok
      { id := p
        clientSecret := "sec"
        status := IntentStatus.succeeded
        paymentMethod := some "pm_1"
        customer := some "cus_1" }
    confirmIntent := fun _ _ => Except.error "offline"
    attachPaymentMethod := fun _ _ => Except.error "offline"
    customerFor := fun i => "cus_" ++ toString i }

/-- A concrete intent for the unpaid fixture booking, with no payment
linked yet. -/
def c2Intent : PaymentIntent :=
  { id := 1
    bookingId := 1
    userId := 3
    paymentId := none
    amount := 30000
    currency := "usd"
    status := IntentStatus.requiresPaymentMethod
    stripePaymentIntentId := "pi_1"
    stripeClientSecret := "sec" }

/-- The fixture database extended with `c2Intent`. -/
def c2DB : DB := { fixtureDB with intents := [c2Intent], nextIntentId := 2 }

/-- Witness for C2 at a concrete database: confirming the
already-succeeded intent never calls the (always-failing) provider
confirmation endpoint, leaves exactly one COMPLETED payment row for the
intent, and stamps the booking paid. -/
theorem confirmPayment_already_succeeded_idempotent_witness :
    (confirmPayment realCfg succeededProvider c2DB tenantUser "pi_1" none
        false).providerConfirmCalled = false ∧
    (completedPaymentsFor (confirmPayment realCfg succeededProvider c2DB tenantUser
        "pi_1" none false).db "pi_1").length = 1 ∧
    (getBookingById (confirmPayment realCfg succeededProvider c2DB tenantUser
        "pi_1" none false).db 1).map Booking.isPaid = some true := by
  have h := confirmPayment_already_succeeded_idempotent realCfg succeededProvider
    c2DB tenantUser "pi_1" none false c2Intent pendingBooking
    { id := "pi_1"
      clientSecret := "sec"
      status := IntentStatus.succeeded
      paymentMethod := some "pm_1"
      customer := some "cus_1" }
    rfl rfl rfl (Or.inl rfl) rfl rfl (fun _ => rfl)
    (fun payId hp => nomatch hp) (fun payId hp => nomatch hp)
  exact ⟨h.1, h.2.2.1, h.2.2.2.1⟩

end RentBackend
